import Mathlib

/-!
Verification of the form-analysis core of `trainer_backend/form_analysis/analyzer.py`.

The Python analyzers consume a video, run a pose detector on every `FRAME_STRIDE`-th
frame, extract per-frame scalar signals, and fold a calibrated hysteresis state
machine over them.  The pose detector (YOLO) and the video decoding are external
collaborators, so the shallow embedding below models each analyzer as a fold over
the stream of per-frame extracted signals: a list of `Option <ExerciseFrame>`,
where `none` stands for a sampled frame that was skipped (no person detected, or
the joints required for the primary signal missing) and `some f` carries the
scalar signals the Python loop body computes from the keypoints before touching
any state.  IEEE floats are modelled as exact rationals `ℚ`; the geometric
primitives (`calculate_angle`, the crunch trunk angle), which genuinely involve
`arccos`/`atan2`, are embedded over `ℝ` in a separate section.
-/

-- ──────────────────────── Numeric helpers (numpy / Python builtins) ────────────────────────

/-- Insert `x` into an already ascending list, keeping it ascending. -/
def insertAsc (x : ℚ) : List ℚ → List ℚ
  | [] => [x]
  | a :: t => if x ≤ a then x :: a :: t else a :: insertAsc x t

/-- Sort ascending (insertion sort); models the sort inside `np.median`. -/
def sortAsc (xs : List ℚ) : List ℚ := xs.foldr insertAsc []

/-- Model of `np.median`: sort, take the middle element (odd length) or the mean of
the two middle elements (even length).  The `0` for the empty list is never used by
the analyzers (they only take medians of windows guarded to be non-empty). -/
def npMedian (xs : List ℚ) : ℚ :=
  let sorted := sortAsc xs
  let n := xs.length
  if n = 0 then 0
  else if n % 2 = 1 then sorted.getD (n / 2) 0
  else (sorted.getD (n / 2 - 1) 0 + sorted.getD (n / 2) 0) / 2

/-- Model of `float(np.min(xs)) if xs else d`. -/
def npMinD (xs : List ℚ) (d : ℚ) : ℚ :=
  match xs with
  | [] => d
  | a :: t => t.foldl min a

/-- Model of `float(np.max(xs)) if xs else d`. -/
def npMaxD (xs : List ℚ) (d : ℚ) : ℚ :=
  match xs with
  | [] => d
  | a :: t => t.foldl max a

/-- Model of `np.mean` (population mean). -/
def npMean (xs : List ℚ) : ℚ := xs.sum / (xs.length : ℚ)

/-- Model of the square of `np.std` (population variance).  The source only ever
compares `np.std(xs) > 12`; since both sides are non-negative this is equivalent
to `npVariance xs > 144`, which is how the comparison is embedded (the square
root of a rational need not be rational). -/
def npVariance (xs : List ℚ) : ℚ :=
  ((xs.map (fun x => (x - npMean xs) ^ 2)).sum) / (xs.length : ℚ)

/-- Python `round(q, 1)` rounds to one decimal with ties going to the even
multiple (banker's rounding): this is the integer part of `10*q`, bumped by one
when the fractional part exceeds 1/2 or equals 1/2 with an odd integer part. -/
def roundHalfEven (q : ℚ) : ℤ :=
  if q - ⌊q⌋ < 1/2 then ⌊q⌋
  else if 1/2 < q - ⌊q⌋ then ⌊q⌋ + 1
  else if ⌊q⌋ % 2 = 0 then ⌊q⌋ else ⌊q⌋ + 1

/-- Model of Python `round(q, 1)`. -/
def roundTo1 (q : ℚ) : ℚ := (roundHalfEven (10 * q) : ℚ) / 10

/-- Model of Python `sep.join(parts)`. -/
def joinStrings (sep : String) : List String → String
  | [] => ""
  | [a] => a
  | a :: b :: t => a ++ sep ++ joinStrings sep (b :: t)

/-- `clause` occurs inside `s` as a contiguous substring. -/
def containsClause (clause s : String) : Prop := ∃ pre post, s = pre ++ clause ++ post

-- ──────────────────────── Result records ────────────────────────

/-- One graded repetition, the per-rep record appended to `rep_details`. -/
structure RepResult where
  rep : ℕ
  status : String
  metric_value : ℚ
  feedback : String
  deriving DecidableEq, Repr

/-- The dict returned by every analyzer:
`{"total_reps": good + bad, "good_reps": good, "bad_reps": bad, "rep_details": [...]}`. -/
structure AnalysisResult where
  total_reps : ℕ
  good_reps : ℕ
  bad_reps : ℕ
  rep_details : List RepResult
  deriving DecidableEq, Repr

-- ──────────────────────── Shared calibration idiom ────────────────────────

/-- The running-range update every analyzer repeats:
`if mn is None: mn = mx = v` then `mn = min(mn, v); mx = max(mx, v)`.
`none` is the not-yet-seeded state. -/
def calibUpdate (mm : Option (ℚ × ℚ)) (v : ℚ) : ℚ × ℚ :=
  match mm with
  | none => (v, v)
  | some (mn, mx) => (min mn v, max mx v)

/-- The grading bookkeeping every analyzer repeats on a rep-window close:
append the graded record and bump whichever of the two counters matches its
status (the source writes this as `good += 1` / `bad += 1` inside the branch of
the grading conditional that built the record). -/
def appendGraded (good bad : ℕ) (d : List RepResult) (r : RepResult) :
    ℕ × ℕ × List RepResult :=
  (good + (if r.status = "good" then 1 else 0),
   bad + (if r.status = "bad" then 1 else 0),
   d ++ [r])

-- ──────────────────────── Push-ups ────────────────────────

/-- A valid push-up frame after extraction: `torso_y` is the mean Y of the visible
torso keypoints (the primary signal; a frame with no visible torso keypoint is
`none` in the stream) and `flare` is the mean of the valid (`> 10°`)
hip-shoulder-elbow angles, `0` when no valid angle was visible this frame. -/
structure PushupFrame where
  torso_y : ℚ
  flare : ℚ
  deriving DecidableEq

/-- `down_thresh = min_y + 0.6 * span if span > 0 else min_y`. -/
def pushupDownThresh (mn mx : ℚ) : ℚ :=
  if mx - mn > 0 then mn + 6/10 * (mx - mn) else mn

/-- `up_thresh = min_y + 0.3 * span if span > 0 else max_y`. -/
def pushupUpThresh (mn mx : ℚ) : ℚ :=
  if mx - mn > 0 then mn + 3/10 * (mx - mn) else mx

/-- The push-up flare threshold (`threshold = 75.0`). -/
def pushupThreshold : ℚ := 75

/-- The push-up grading block run when a rep window closes with a non-empty list
of accumulated flare samples (source lines 163-180). -/
def gradePushupRep (current_rep_angles : List ℚ) (rep_num : ℕ) : RepResult :=
  let median_flare := npMedian current_rep_angles
  if median_flare > pushupThreshold then
    { rep := rep_num, status := "bad", metric_value := roundTo1 median_flare,
      feedback := "Elbow flare too wide (" ++ toString (roundTo1 median_flare)
        ++ "° > " ++ toString pushupThreshold
        ++ "°). Keep elbows closer to your body." }
  else
    { rep := rep_num, status := "good", metric_value := roundTo1 median_flare,
      feedback := "Good form — elbows tucked properly." }

/-- The mutable locals of `_analyze_pushups`. -/
structure PushupState where
  state : String
  minmax : Option (ℚ × ℚ)
  current_rep_angles : List ℚ
  rep_details : List RepResult
  good : ℕ
  bad : ℕ
  deriving DecidableEq

def pushupInit : PushupState :=
  { state := "up", minmax := none, current_rep_angles := [], rep_details := [],
    good := 0, bad := 0 }

/-- One iteration of the `_analyze_pushups` loop body on a sampled frame
(`none` = frame skipped before the state machine is reached). -/
def pushupStep (s : PushupState) (fr : Option PushupFrame) : PushupState :=
  match fr with
  | none => s
  | some f =>
    let c := calibUpdate s.minmax f.torso_y
    let down_thresh := pushupDownThresh c.1 c.2
    let up_thresh := pushupUpThresh c.1 c.2
    let st1 := if s.state = "up" ∧ f.torso_y > down_thresh then "down" else s.state
    let angles1 :=
      if s.state = "up" ∧ f.torso_y > down_thresh then ([] : List ℚ)
      else s.current_rep_angles
    if st1 = "down" then
      let angles2 := if f.flare > 0 then angles1 ++ [f.flare] else angles1
      if f.torso_y < up_thresh then
        if angles2 ≠ [] then
          let gbd := appendGraded s.good s.bad s.rep_details
            (gradePushupRep angles2 (s.good + s.bad + 1))
          { state := "up", minmax := some c, current_rep_angles := angles2,
            rep_details := gbd.2.2, good := gbd.1, bad := gbd.2.1 }
        else
          { state := "up", minmax := some c, current_rep_angles := angles2,
            rep_details := s.rep_details, good := s.good, bad := s.bad }
      else
        { state := st1, minmax := some c, current_rep_angles := angles2,
          rep_details := s.rep_details, good := s.good, bad := s.bad }
    else
      { state := st1, minmax := some c, current_rep_angles := angles1,
        rep_details := s.rep_details, good := s.good, bad := s.bad }

/-- The whole `_analyze_pushups` loop over the extracted frame stream. -/
def pushupRun (frames : List (Option PushupFrame)) : PushupState :=
  frames.foldl pushupStep pushupInit

/-- The dict `_analyze_pushups` returns. -/
def pushupResult (frames : List (Option PushupFrame)) : AnalysisResult :=
  let s := pushupRun frames
  { total_reps := s.good + s.bad, good_reps := s.good, bad_reps := s.bad,
    rep_details := s.rep_details }

-- ──────────────────────── Pull-ups ────────────────────────

/-- A valid pull-up frame: `head_y` is the nose Y (primary; frames with no nose
are `none`), `shoulder_y` the mean Y of the visible shoulders when at least one
is visible. -/
structure PullupFrame where
  head_y : ℚ
  shoulder_y : Option ℚ
  deriving DecidableEq

/-- `top_thresh = min_head_y + 0.3 * head_range if head_range > 0 else min_head_y`. -/
def pullupTopThresh (mn mx : ℚ) : ℚ :=
  if mx - mn > 0 then mn + 3/10 * (mx - mn) else mn

/-- `bottom_thresh = min_head_y + 0.7 * head_range if head_range > 0 else max_head_y`. -/
def pullupBottomThresh (mn mx : ℚ) : ℚ :=
  if mx - mn > 0 then mn + 7/10 * (mx - mn) else mx

/-- The pull-up grading block run on every rep-window close (source lines 248-254). -/
def gradePullupRep (chin_above_bar : Bool) (rep_num : ℕ) : RepResult :=
  if chin_above_bar then
    { rep := rep_num, status := "good", metric_value := 1,
      feedback := "Chin cleared the bar — full range of motion." }
  else
    { rep := rep_num, status := "bad", metric_value := 0,
      feedback := "Chin did not clear bar height. Pull higher." }

/-- The mutable locals of `_analyze_pullups`. -/
structure PullupState where
  state : String
  minmax : Option (ℚ × ℚ)
  chin_above_bar : Bool
  rep_details : List RepResult
  good : ℕ
  bad : ℕ
  deriving DecidableEq

def pullupInit : PullupState :=
  { state := "down", minmax := none, chin_above_bar := false, rep_details := [],
    good := 0, bad := 0 }

/-- One iteration of the `_analyze_pullups` loop body on a sampled frame. -/
def pullupStep (s : PullupState) (fr : Option PullupFrame) : PullupState :=
  match fr with
  | none => s
  | some f =>
    let c := calibUpdate s.minmax f.head_y
    let top_thresh := pullupTopThresh c.1 c.2
    let bottom_thresh := pullupBottomThresh c.1 c.2
    let st1 := if s.state = "down" ∧ f.head_y < top_thresh then "up" else s.state
    let chin1 :=
      if s.state = "down" ∧ f.head_y < top_thresh then false else s.chin_above_bar
    if st1 = "up" then
      let chin2 :=
        match f.shoulder_y with
        | some sy => if f.head_y < sy then true else chin1
        | none => chin1
      if f.head_y > bottom_thresh then
        let gbd := appendGraded s.good s.bad s.rep_details
          (gradePullupRep chin2 (s.good + s.bad + 1))
        { state := "down", minmax := some c, chin_above_bar := chin2,
          rep_details := gbd.2.2, good := gbd.1, bad := gbd.2.1 }
      else
        { state := st1, minmax := some c, chin_above_bar := chin2,
          rep_details := s.rep_details, good := s.good, bad := s.bad }
    else
      { state := st1, minmax := some c, chin_above_bar := chin1,
        rep_details := s.rep_details, good := s.good, bad := s.bad }

/-- The whole `_analyze_pullups` loop over the extracted frame stream. -/
def pullupRun (frames : List (Option PullupFrame)) : PullupState :=
  frames.foldl pullupStep pullupInit

/-- The dict `_analyze_pullups` returns. -/
def pullupResult (frames : List (Option PullupFrame)) : AnalysisResult :=
  let s := pullupRun frames
  { total_reps := s.good + s.bad, good_reps := s.good, bad_reps := s.bad,
    rep_details := s.rep_details }

-- ──────────────────────── Bench press ────────────────────────

/-- A valid bench-press frame: `elbow_angle` is the mean shoulder-elbow-wrist
angle over the visible sides, `wrist_y` the mean wrist Y (primary).  Frames
where neither side has all of shoulder/elbow/wrist are `none`. -/
structure BenchFrame where
  elbow_angle : ℚ
  wrist_y : ℚ
  deriving DecidableEq

/-- `down_thresh = min_wrist_y + 0.6 * span if span > 0 else min_wrist_y`. -/
def benchDownThresh (mn mx : ℚ) : ℚ :=
  if mx - mn > 0 then mn + 6/10 * (mx - mn) else mn

/-- `up_thresh = min_wrist_y + 0.3 * span if span > 0 else max_wrist_y`. -/
def benchUpThresh (mn mx : ℚ) : ℚ :=
  if mx - mn > 0 then mn + 3/10 * (mx - mn) else mx

/-- The failure clauses collected by the bench-press grader (source lines 353-360):
an exclusive depth clause (`min_angle < 70` / `min_angle > 110`) followed by the
lockout clause when lockout was not reached. -/
def benchIssues (min_angle : ℚ) (lockout_reached : Bool) : List String :=
  (if min_angle < 70 then
      ["Went too deep (" ++ toString (roundTo1 min_angle) ++ "°). Aim for 80-100° at bottom."]
    else if min_angle > 110 then
      ["Insufficient depth (" ++ toString (roundTo1 min_angle) ++ "°). Lower the bar more."]
    else [])
  ++ (if lockout_reached then [] else ["Did not fully lock out at the top."])

/-- The bench-press grading block run on rep-window close (source lines 349-367):
`lockout_reached = elbow_angle > 160` is computed from the closing frame's elbow
angle, `min_angle` over the accumulated window samples. -/
def gradeBenchRep (current_rep_bottom_angles : List ℚ) (final_elbow_angle : ℚ)
    (rep_num : ℕ) : RepResult :=
  let lockout_reached := decide (final_elbow_angle > 160)
  let min_angle := npMinD current_rep_bottom_angles 0
  let issues := benchIssues min_angle lockout_reached
  if issues ≠ [] then
    { rep := rep_num, status := "bad", metric_value := roundTo1 min_angle,
      feedback := joinStrings " " issues }
  else
    { rep := rep_num, status := "good", metric_value := roundTo1 min_angle,
      feedback := "Good depth and full lockout." }

/-- The mutable locals of `_analyze_bench_press`. -/
structure BenchState where
  state : String
  minmax : Option (ℚ × ℚ)
  current_rep_bottom_angles : List ℚ
  lockout_reached : Bool
  rep_details : List RepResult
  good : ℕ
  bad : ℕ
  deriving DecidableEq

def benchInit : BenchState :=
  { state := "up", minmax := none, current_rep_bottom_angles := [],
    lockout_reached := false, rep_details := [], good := 0, bad := 0 }

/-- One iteration of the `_analyze_bench_press` loop body on a sampled frame. -/
def benchStep (s : BenchState) (fr : Option BenchFrame) : BenchState :=
  match fr with
  | none => s
  | some f =>
    let c := calibUpdate s.minmax f.wrist_y
    let down_thresh := benchDownThresh c.1 c.2
    let up_thresh := benchUpThresh c.1 c.2
    let st1 := if s.state = "up" ∧ f.wrist_y > down_thresh then "down" else s.state
    let angles1 :=
      if s.state = "up" ∧ f.wrist_y > down_thresh then ([] : List ℚ)
      else s.current_rep_bottom_angles
    let lock1 :=
      if s.state = "up" ∧ f.wrist_y > down_thresh then false else s.lockout_reached
    if st1 = "down" then
      let angles2 := angles1 ++ [f.elbow_angle]
      if f.wrist_y < up_thresh then
        let gbd := appendGraded s.good s.bad s.rep_details
          (gradeBenchRep angles2 f.elbow_angle (s.good + s.bad + 1))
        { state := "up", minmax := some c, current_rep_bottom_angles := angles2,
          lockout_reached := decide (f.elbow_angle > 160),
          rep_details := gbd.2.2, good := gbd.1, bad := gbd.2.1 }
      else
        { state := st1, minmax := some c, current_rep_bottom_angles := angles2,
          lockout_reached := lock1, rep_details := s.rep_details,
          good := s.good, bad := s.bad }
    else
      { state := st1, minmax := some c, current_rep_bottom_angles := angles1,
        lockout_reached := lock1, rep_details := s.rep_details,
        good := s.good, bad := s.bad }

/-- The whole `_analyze_bench_press` loop over the extracted frame stream. -/
def benchRun (frames : List (Option BenchFrame)) : BenchState :=
  frames.foldl benchStep benchInit

/-- The dict `_analyze_bench_press` returns. -/
def benchResult (frames : List (Option BenchFrame)) : AnalysisResult :=
  let s := benchRun frames
  { total_reps := s.good + s.bad, good_reps := s.good, bad_reps := s.bad,
    rep_details := s.rep_details }

-- ──────────────────────── Curls ────────────────────────

/-- A valid curls frame: `elbow_angle` is the mean shoulder-elbow-wrist angle
over the visible sides (primary signal), `ua_angle` the mean hip-shoulder-elbow
angle, present only when a visible side also had its hip keypoint. -/
structure CurlFrame where
  elbow_angle : ℚ
  ua_angle : Option ℚ
  deriving DecidableEq

/-- `curl_thresh = min_angle + 0.35 * angle_range if angle_range > 0 else min_angle`. -/
def curlCurlThresh (mn mx : ℚ) : ℚ :=
  if mx - mn > 0 then mn + 35/100 * (mx - mn) else mn

/-- `extend_thresh = min_angle + 0.65 * angle_range if angle_range > 0 else max_angle`. -/
def curlExtendThresh (mn mx : ℚ) : ℚ :=
  if mx - mn > 0 then mn + 65/100 * (mx - mn) else mx

/-- The range-of-motion failure clause of the curls grader. -/
def curlRomMsg (rom : ℚ) : String :=
  "Limited range of motion (" ++ toString (roundTo1 rom)
    ++ "°). Extend fully and curl completely."

/-- The upper-arm-swing failure clause of the curls grader. -/
def curlSwingMsg : String :=
  "Upper arm is swinging. Keep your elbow pinned to your side."

/-- The failure clauses collected by the curls grader (source lines 455-465).
The swing clause fires only when upper-arm samples exist and their standard
deviation exceeds 12; `np.std(xs) > 12` is embedded as `npVariance xs > 144`
(equivalent since both sides of the source comparison are non-negative). -/
def curlIssues (rom : ℚ) (upper_arm_angles : List ℚ) : List String :=
  (if rom < 80 then [curlRomMsg rom] else [])
  ++ (if upper_arm_angles ≠ [] ∧ npVariance upper_arm_angles > 144 then [curlSwingMsg]
      else [])

/-- The curls grading block run on rep-window close (source lines 453-472). -/
def gradeCurlRep (current_rep_angles upper_arm_angles : List ℚ) (rep_num : ℕ) :
    RepResult :=
  let rep_min := npMinD current_rep_angles 90
  let rep_max := npMaxD current_rep_angles 90
  let rom := rep_max - rep_min
  let issues := curlIssues rom upper_arm_angles
  if issues ≠ [] then
    { rep := rep_num, status := "bad", metric_value := roundTo1 rom,
      feedback := joinStrings " " issues }
  else
    { rep := rep_num, status := "good", metric_value := roundTo1 rom,
      feedback := "Good range of motion and stable upper arm." }

/-- The mutable locals of `_analyze_curls`. -/
structure CurlState where
  state : String
  minmax : Option (ℚ × ℚ)
  current_rep_angles : List ℚ
  upper_arm_angles : List ℚ
  rep_details : List RepResult
  good : ℕ
  bad : ℕ
  deriving DecidableEq

def curlInit : CurlState :=
  { state := "down", minmax := none, current_rep_angles := [],
    upper_arm_angles := [], rep_details := [], good := 0, bad := 0 }

/-- One iteration of the `_analyze_curls` loop body on a sampled frame. -/
def curlStep (s : CurlState) (fr : Option CurlFrame) : CurlState :=
  match fr with
  | none => s
  | some f =>
    let c := calibUpdate s.minmax f.elbow_angle
    let curl_thresh := curlCurlThresh c.1 c.2
    let extend_thresh := curlExtendThresh c.1 c.2
    let st1 := if s.state = "down" ∧ f.elbow_angle < curl_thresh then "up" else s.state
    let angles1 :=
      if s.state = "down" ∧ f.elbow_angle < curl_thresh then ([] : List ℚ)
      else s.current_rep_angles
    let ua1 :=
      if s.state = "down" ∧ f.elbow_angle < curl_thresh then ([] : List ℚ)
      else s.upper_arm_angles
    if st1 = "up" then
      let angles2 := angles1 ++ [f.elbow_angle]
      let ua2 :=
        match f.ua_angle with
        | some ua => ua1 ++ [ua]
        | none => ua1
      if f.elbow_angle > extend_thresh then
        let gbd := appendGraded s.good s.bad s.rep_details
          (gradeCurlRep angles2 ua2 (s.good + s.bad + 1))
        { state := "down", minmax := some c, current_rep_angles := angles2,
          upper_arm_angles := ua2, rep_details := gbd.2.2,
          good := gbd.1, bad := gbd.2.1 }
      else
        { state := st1, minmax := some c, current_rep_angles := angles2,
          upper_arm_angles := ua2, rep_details := s.rep_details,
          good := s.good, bad := s.bad }
    else
      { state := st1, minmax := some c, current_rep_angles := angles1,
        upper_arm_angles := ua1, rep_details := s.rep_details,
        good := s.good, bad := s.bad }

/-- The whole `_analyze_curls` loop over the extracted frame stream. -/
def curlRun (frames : List (Option CurlFrame)) : CurlState :=
  frames.foldl curlStep curlInit

/-- The dict `_analyze_curls` returns. -/
def curlResult (frames : List (Option CurlFrame)) : AnalysisResult :=
  let s := curlRun frames
  { total_reps := s.good + s.bad, good_reps := s.good, bad_reps := s.bad,
    rep_details := s.rep_details }

-- ──────────────────────── Crunches ────────────────────────

/-- A valid crunch frame: `shoulder_y` the mean Y of the visible shoulders
(primary), `trunk_angle` the trunk angle from horizontal computed by the source
from the mean shoulder and hip coordinates (embedded over `ℝ` below as
`crunchTrunkAngle`), and `nose_y` the nose Y when the nose is visible.  Frames
missing both shoulders or both hips are `none`. -/
structure CrunchFrame where
  shoulder_y : ℚ
  trunk_angle : ℚ
  nose_y : Option ℚ
  deriving DecidableEq

/-- `up_thresh = min_shoulder_y + 0.35 * span if span > 0 else min_shoulder_y`. -/
def crunchUpThresh (mn mx : ℚ) : ℚ :=
  if mx - mn > 0 then mn + 35/100 * (mx - mn) else mn

/-- `down_thresh = min_shoulder_y + 0.65 * span if span > 0 else max_shoulder_y`. -/
def crunchDownThresh (mn mx : ℚ) : ℚ :=
  if mx - mn > 0 then mn + 65/100 * (mx - mn) else mx

/-- The failure clauses collected by the crunches grader (source lines 549-560).
`nose_sh_dist` is `|nose_y - shoulder_y|` at the closing frame when the nose was
visible there. -/
def crunchIssues (max_lift : ℚ) (nose_sh_dist : Option ℚ) : List String :=
  (if max_lift < 20 then
      ["Insufficient lift (" ++ toString (roundTo1 max_lift) ++ "°). Curl your torso up more."]
    else if max_lift > 55 then
      ["Over-flexion (" ++ toString (roundTo1 max_lift)
        ++ "°). You\x27re doing a sit-up, not a crunch."]
    else [])
  ++ (match nose_sh_dist with
      | some d =>
        if d > 60 then
          ["Neck appears strained. Keep your gaze upward and don\x27t pull your head forward."]
        else []
      | none => [])

/-- The crunches grading block run on rep-window close (source lines 546-567). -/
def gradeCrunchRep (current_rep_lifts : List ℚ) (nose_sh_dist : Option ℚ)
    (rep_num : ℕ) : RepResult :=
  let max_lift := npMaxD current_rep_lifts 0
  let issues := crunchIssues max_lift nose_sh_dist
  if issues ≠ [] then
    { rep := rep_num, status := "bad", metric_value := roundTo1 max_lift,
      feedback := joinStrings " " issues }
  else
    { rep := rep_num, status := "good", metric_value := roundTo1 max_lift,
      feedback := "Good crunch form — proper lift and neutral neck." }

/-- The mutable locals of `_analyze_crunches`. -/
structure CrunchState where
  state : String
  minmax : Option (ℚ × ℚ)
  current_rep_lifts : List ℚ
  rep_details : List RepResult
  good : ℕ
  bad : ℕ
  deriving DecidableEq

def crunchInit : CrunchState :=
  { state := "down", minmax := none, current_rep_lifts := [], rep_details := [],
    good := 0, bad := 0 }

/-- One iteration of the `_analyze_crunches` loop body on a sampled frame. -/
def crunchStep (s : CrunchState) (fr : Option CrunchFrame) : CrunchState :=
  match fr with
  | none => s
  | some f =>
    let c := calibUpdate s.minmax f.shoulder_y
    let up_thresh := crunchUpThresh c.1 c.2
    let down_thresh := crunchDownThresh c.1 c.2
    let st1 := if s.state = "down" ∧ f.shoulder_y < up_thresh then "up" else s.state
    let lifts1 :=
      if s.state = "down" ∧ f.shoulder_y < up_thresh then ([] : List ℚ)
      else s.current_rep_lifts
    if st1 = "up" then
      let lifts2 := lifts1 ++ [f.trunk_angle]
      if f.shoulder_y > down_thresh then
        let gbd := appendGraded s.good s.bad s.rep_details
          (gradeCrunchRep lifts2 (f.nose_y.map (fun ny => |ny - f.shoulder_y|))
            (s.good + s.bad + 1))
        { state := "down", minmax := some c, current_rep_lifts := lifts2,
          rep_details := gbd.2.2, good := gbd.1, bad := gbd.2.1 }
      else
        { state := st1, minmax := some c, current_rep_lifts := lifts2,
          rep_details := s.rep_details, good := s.good, bad := s.bad }
    else
      { state := st1, minmax := some c, current_rep_lifts := lifts1,
        rep_details := s.rep_details, good := s.good, bad := s.bad }

/-- The whole `_analyze_crunches` loop over the extracted frame stream. -/
def crunchRun (frames : List (Option CrunchFrame)) : CrunchState :=
  frames.foldl crunchStep crunchInit

/-- The dict `_analyze_crunches` returns. -/
def crunchResult (frames : List (Option CrunchFrame)) : AnalysisResult :=
  let s := crunchRun frames
  { total_reps := s.good + s.bad, good_reps := s.good, bad_reps := s.bad,
    rep_details := s.rep_details }

-- ──────────────────────── Public API ────────────────────────

/-- A video, modelled by the per-exercise frame-signal streams its frames induce
once the external pose detector and the geometric extraction have run.  Each
analyzer consumes only its own stream, mirroring how each Python analyzer
re-reads the same video file. -/
structure Video where
  pushupFrames : List (Option PushupFrame)
  pullupFrames : List (Option PullupFrame)
  benchFrames : List (Option BenchFrame)
  curlFrames : List (Option CurlFrame)
  crunchFrames : List (Option CrunchFrame)

/-- The module-level registry mapping the lowercase exercise name to its
analyzer (source lines 576-582). -/
def ANALYZERS : List (String × (Video → AnalysisResult)) :=
  [("push-ups", fun v => pushupResult v.pushupFrames),
   ("pull-ups", fun v => pullupResult v.pullupFrames),
   ("bench press", fun v => benchResult v.benchFrames),
   ("curls", fun v => curlResult v.curlFrames),
   ("crunches", fun v => crunchResult v.crunchFrames)]

/-- Python `str.lower()`, modelled characterwise (the five registry keys and
the identifiers compared against them are plain ASCII). -/
def strLower (s : String) : String := ⟨s.data.map Char.toLower⟩

/-- `analyze_video(exercise_name, video_path)`: look the lowercased name up in
`ANALYZERS` and raise `ValueError` (embedded as `Except.error`) when it is
absent; the lookup happens before the video is touched. -/
def analyze_video (exercise_name : String) (video : Video) :
    Except String AnalysisResult :=
  match ANALYZERS.find? (fun p => p.1 = strLower exercise_name) with
  | none =>
      .error ("Unsupported exercise \x27" ++ exercise_name
        ++ "\x27. Supported: [\x27push-ups\x27, \x27pull-ups\x27, \x27bench press\x27, \x27curls\x27, \x27crunches\x27]")
  | some p => .ok (p.2 video)

/-- The message for `total_reps == 0`. -/
def noRepsMsg : String :=
  "No reps detected. Try recording from the recommended angle with better lighting."

/-- The message for `ratio == 1.0`. -/
def excellentMsg (total_reps : ℕ) : String :=
  "Excellent form on all " ++ toString total_reps
    ++ " reps! Consider increasing weight or reps for progressive overload."

/-- The message for `ratio >= 0.75`. -/
def maintainMsg (good_reps total_reps : ℕ) : String :=
  "Good form on " ++ toString good_reps ++ "/" ++ toString total_reps
    ++ " reps. Maintain current load and focus on perfecting the remaining reps."

/-- The message for `ratio >= 0.5`. -/
def reduceMsg (good_reps total_reps : ℕ) : String :=
  "Form broke down on " ++ toString (total_reps - good_reps)
    ++ " reps. Consider reducing weight by 5-10% to build better movement patterns."

/-- The message for every smaller ratio. -/
def reduceBigMsg (good_reps total_reps : ℕ) : String :=
  "Only " ++ toString good_reps ++ "/" ++ toString total_reps
    ++ " reps had good form. Reduce the load significantly and focus on controlled, quality reps."

/-- `generate_load_suggestion` (source lines 608-644).  The `exercise_name`
parameter is accepted and ignored, exactly as in the source. -/
def generate_load_suggestion (exercise_name : String) (good_reps total_reps : ℕ) :
    String :=
  if total_reps = 0 then noRepsMsg
  else
    let ratio : ℚ := (good_reps : ℚ) / (total_reps : ℚ)
    if ratio = 1 then excellentMsg total_reps
    else if ratio ≥ 75/100 then maintainMsg good_reps total_reps
    else if ratio ≥ 5/10 then reduceMsg good_reps total_reps
    else reduceBigMsg good_reps total_reps

-- ──────────────────────── Geometry over ℝ ────────────────────────

/-- A 2D image-plane point. -/
structure Pt where
  x : ℝ
  y : ℝ

/-- `np.degrees`. -/
noncomputable def degrees (r : ℝ) : ℝ := r * 180 / Real.pi

/-- `np.arctan2` restricted to the real plane (numpy convention:
`atan2(y, 0) = ±π/2` for `y ≠ 0` and `atan2(0, 0) = 0`). -/
noncomputable def atan2 (y x : ℝ) : ℝ :=
  if 0 < x then Real.arctan (y / x)
  else if x < 0 then
    (if 0 ≤ y then Real.arctan (y / x) + Real.pi else Real.arctan (y / x) - Real.pi)
  else
    (if 0 < y then Real.pi / 2 else if y < 0 then -(Real.pi / 2) else 0)

/-- The clipped normalized dot product inside `calculate_angle`:
`np.clip(np.dot(ba, bc) / (norm_ba * norm_bc), -1.0, 1.0)`. -/
noncomputable def clippedCosine (a b c : Pt) : ℝ :=
  min 1 (max (-1)
    (((a.x - b.x) * (c.x - b.x) + (a.y - b.y) * (c.y - b.y)) /
      (Real.sqrt ((a.x - b.x) ^ 2 + (a.y - b.y) ^ 2) *
        Real.sqrt ((c.x - b.x) ^ 2 + (c.y - b.y) ^ 2))))

/-- `calculate_angle(point_a, point_b, point_c)` (source lines 26-45): the angle
in degrees at vertex `b`, `0.0` when either ray has zero length. -/
noncomputable def calculate_angle (a b c : Pt) : ℝ :=
  if Real.sqrt ((a.x - b.x) ^ 2 + (a.y - b.y) ^ 2) = 0 ∨
      Real.sqrt ((c.x - b.x) ^ 2 + (c.y - b.y) ^ 2) = 0 then 0
  else degrees (Real.arccos (clippedCosine a b c))

/-- `np.mean` over reals, for the crunch trunk-angle extraction. -/
noncomputable def listMeanR (xs : List ℝ) : ℝ := xs.sum / (xs.length : ℝ)

/-- The crunch trunk-angle extraction (source lines 521-529): means of the
visible shoulder and hip points, then
`degrees(arctan2(dy, dx)) if dx > 0 else 0` with `dx = |shoulder_x - hip_x|`
and `dy = hip_y - shoulder_y`. -/
noncomputable def crunchTrunkAngle (sh_pts hip_pts : List Pt) : ℝ :=
  let shoulder_y := listMeanR (sh_pts.map Pt.y)
  let hip_y := listMeanR (hip_pts.map Pt.y)
  let shoulder_x := listMeanR (sh_pts.map Pt.x)
  let hip_x := listMeanR (hip_pts.map Pt.x)
  let dx := |shoulder_x - hip_x|
  let dy := hip_y - shoulder_y
  if 0 < dx then degrees (atan2 dy dx) else 0

/-- Modelled from the spec: the spec's formula for the crunches trunk angle,
`degrees(atan2(hipY − shoulderY, |shoulderX − hipX|))` over the same mean
coordinates, with no guard on a zero horizontal separation.  Defined only to be
compared with `crunchTrunkAngle`, the definition taken from the source. -/
noncomputable def crunchTrunkAngleSpec (sh_pts hip_pts : List Pt) : ℝ :=
  let shoulder_y := listMeanR (sh_pts.map Pt.y)
  let hip_y := listMeanR (hip_pts.map Pt.y)
  let shoulder_x := listMeanR (sh_pts.map Pt.x)
  let hip_x := listMeanR (hip_pts.map Pt.x)
  degrees (atan2 (hip_y - shoulder_y) |shoulder_x - hip_x|)

-- ──────────────────────── Rep-count invariant machinery ────────────────────────

/-- A predicate preserved by every step of a fold holds of the fold's result. -/
theorem foldl_preserve {σ α : Type} (P : σ → Prop) (f : σ → α → σ)
    (hf : ∀ s a, P s → P (f s a)) :
    ∀ (l : List α) (s : σ), P s → P (l.foldl f s)
  | [], _, h => h
  | a :: t, s, h => foldl_preserve P f hf t (f s a) (hf s a h)

/-- The bookkeeping invariant of every analyzer: `rep_details` has one record per
counted rep and the records are numbered `1, 2, ..., good + bad` in order. -/
def RepInv (good bad : ℕ) (d : List RepResult) : Prop :=
  d.length = good + bad ∧ d.map RepResult.rep = List.range' 1 (good + bad)

theorem repInv_append (g b g' b' : ℕ) (d : List RepResult) (r : RepResult)
    (h : RepInv g b d) (hr : r.rep = g + b + 1) (hsum : g' + b' = g + b + 1) :
    RepInv g' b' (d ++ [r]) := by
  constructor
  · simp only [List.length_append, List.length_singleton, h.1, hsum]
  · rw [List.map_append, List.map_singleton, h.2, hsum, List.range'_concat]
    have : 1 + 1 * (g + b) = g + b + 1 := by omega
    rw [this, hr]

/-- Appending a grader record numbered `good + bad + 1` and bumping whichever of
the two counters matches its status preserves the invariant. -/
theorem repInv_appendGraded (g b : ℕ) (d : List RepResult) (r : RepResult)
    (h : RepInv g b d) (hr : r.rep = g + b + 1)
    (hst : r.status = "good" ∨ r.status = "bad") :
    RepInv (appendGraded g b d r).1 (appendGraded g b d r).2.1
      (appendGraded g b d r).2.2 := by
  unfold appendGraded
  dsimp only
  apply repInv_append g b _ _ d r h hr
  rcases hst with hs | hs <;> rw [hs] <;> simp <;> omega

theorem gradePushupRep_rep (a : List ℚ) (n : ℕ) : (gradePushupRep a n).rep = n := by
  unfold gradePushupRep; dsimp only; split <;> rfl

theorem gradePushupRep_status (a : List ℚ) (n : ℕ) :
    (gradePushupRep a n).status = "good" ∨ (gradePushupRep a n).status = "bad" := by
  unfold gradePushupRep; dsimp only; split
  · exact Or.inr rfl
  · exact Or.inl rfl

theorem gradePullupRep_rep (c : Bool) (n : ℕ) : (gradePullupRep c n).rep = n := by
  unfold gradePullupRep; split <;> rfl

theorem gradePullupRep_status (c : Bool) (n : ℕ) :
    (gradePullupRep c n).status = "good" ∨ (gradePullupRep c n).status = "bad" := by
  unfold gradePullupRep; split
  · exact Or.inl rfl
  · exact Or.inr rfl

theorem gradeBenchRep_rep (a : List ℚ) (fin : ℚ) (n : ℕ) :
    (gradeBenchRep a fin n).rep = n := by
  unfold gradeBenchRep; dsimp only; split <;> rfl

theorem gradeBenchRep_status (a : List ℚ) (fin : ℚ) (n : ℕ) :
    (gradeBenchRep a fin n).status = "good" ∨ (gradeBenchRep a fin n).status = "bad" := by
  unfold gradeBenchRep; dsimp only; split
  · exact Or.inr rfl
  · exact Or.inl rfl

theorem gradeCurlRep_rep (a ua : List ℚ) (n : ℕ) : (gradeCurlRep a ua n).rep = n := by
  unfold gradeCurlRep; dsimp only; split <;> rfl

theorem gradeCurlRep_status (a ua : List ℚ) (n : ℕ) :
    (gradeCurlRep a ua n).status = "good" ∨ (gradeCurlRep a ua n).status = "bad" := by
  unfold gradeCurlRep; dsimp only; split
  · exact Or.inr rfl
  · exact Or.inl rfl

theorem gradeCrunchRep_rep (l : List ℚ) (d : Option ℚ) (n : ℕ) :
    (gradeCrunchRep l d n).rep = n := by
  unfold gradeCrunchRep; dsimp only; split <;> rfl

theorem gradeCrunchRep_status (l : List ℚ) (d : Option ℚ) (n : ℕ) :
    (gradeCrunchRep l d n).status = "good" ∨ (gradeCrunchRep l d n).status = "bad" := by
  unfold gradeCrunchRep; dsimp only; split
  · exact Or.inr rfl
  · exact Or.inl rfl

theorem pushupStep_repInv (s : PushupState) (fr : Option PushupFrame)
    (h : RepInv s.good s.bad s.rep_details) :
    RepInv (pushupStep s fr).good (pushupStep s fr).bad (pushupStep s fr).rep_details := by
  cases fr with
  | none => exact h
  | some f =>
    unfold pushupStep
    dsimp only
    split_ifs <;>
      first
        | exact h
        | exact repInv_appendGraded _ _ _ _ h (gradePushupRep_rep _ _)
            (gradePushupRep_status _ _)

theorem pullupStep_repInv (s : PullupState) (fr : Option PullupFrame)
    (h : RepInv s.good s.bad s.rep_details) :
    RepInv (pullupStep s fr).good (pullupStep s fr).bad (pullupStep s fr).rep_details := by
  cases fr with
  | none => exact h
  | some f =>
    unfold pullupStep
    dsimp only
    split_ifs <;>
      first
        | exact h
        | exact repInv_appendGraded _ _ _ _ h (gradePullupRep_rep _ _)
            (gradePullupRep_status _ _)

theorem benchStep_repInv (s : BenchState) (fr : Option BenchFrame)
    (h : RepInv s.good s.bad s.rep_details) :
    RepInv (benchStep s fr).good (benchStep s fr).bad (benchStep s fr).rep_details := by
  cases fr with
  | none => exact h
  | some f =>
    unfold benchStep
    dsimp only
    split_ifs <;>
      first
        | exact h
        | exact repInv_appendGraded _ _ _ _ h (gradeBenchRep_rep _ _ _)
            (gradeBenchRep_status _ _ _)

theorem curlStep_repInv (s : CurlState) (fr : Option CurlFrame)
    (h : RepInv s.good s.bad s.rep_details) :
    RepInv (curlStep s fr).good (curlStep s fr).bad (curlStep s fr).rep_details := by
  cases fr with
  | none => exact h
  | some f =>
    unfold curlStep
    dsimp only
    split_ifs <;>
      first
        | exact h
        | exact repInv_appendGraded _ _ _ _ h (gradeCurlRep_rep _ _ _)
            (gradeCurlRep_status _ _ _)

theorem crunchStep_repInv (s : CrunchState) (fr : Option CrunchFrame)
    (h : RepInv s.good s.bad s.rep_details) :
    RepInv (crunchStep s fr).good (crunchStep s fr).bad (crunchStep s fr).rep_details := by
  cases fr with
  | none => exact h
  | some f =>
    unfold crunchStep
    dsimp only
    split_ifs <;>
      first
        | exact h
        | exact repInv_appendGraded _ _ _ _ h (gradeCrunchRep_rep _ _ _)
            (gradeCrunchRep_status _ _ _)

theorem pushupRun_repInv (l : List (Option PushupFrame)) :
    RepInv (pushupRun l).good (pushupRun l).bad (pushupRun l).rep_details := by
  apply foldl_preserve (fun s => RepInv s.good s.bad s.rep_details) pushupStep
    pushupStep_repInv l pushupInit
  exact ⟨rfl, rfl⟩

theorem pullupRun_repInv (l : List (Option PullupFrame)) :
    RepInv (pullupRun l).good (pullupRun l).bad (pullupRun l).rep_details := by
  apply foldl_preserve (fun s => RepInv s.good s.bad s.rep_details) pullupStep
    pullupStep_repInv l pullupInit
  exact ⟨rfl, rfl⟩

theorem benchRun_repInv (l : List (Option BenchFrame)) :
    RepInv (benchRun l).good (benchRun l).bad (benchRun l).rep_details := by
  apply foldl_preserve (fun s => RepInv s.good s.bad s.rep_details) benchStep
    benchStep_repInv l benchInit
  exact ⟨rfl, rfl⟩

theorem curlRun_repInv (l : List (Option CurlFrame)) :
    RepInv (curlRun l).good (curlRun l).bad (curlRun l).rep_details := by
  apply foldl_preserve (fun s => RepInv s.good s.bad s.rep_details) curlStep
    curlStep_repInv l curlInit
  exact ⟨rfl, rfl⟩

theorem crunchRun_repInv (l : List (Option CrunchFrame)) :
    RepInv (crunchRun l).good (crunchRun l).bad (crunchRun l).rep_details := by
  apply foldl_preserve (fun s => RepInv s.good s.bad s.rep_details) crunchStep
    crunchStep_repInv l crunchInit
  exact ⟨rfl, rfl⟩

/-- The claimed shape of a final `AnalysisResult`: totals add up, both counters
are non-negative (automatic for `ℕ`, stated for completeness), one detail record
per rep, numbered `1..total_reps` in order. -/
def resultInv (r : AnalysisResult) : Prop :=
  r.total_reps = r.good_reps + r.bad_reps ∧
  0 ≤ r.good_reps ∧ 0 ≤ r.bad_reps ∧
  r.rep_details.length = r.total_reps ∧
  r.rep_details.map RepResult.rep = List.range' 1 r.total_reps

theorem resultInv_mk (g b : ℕ) (d : List RepResult) (h : RepInv g b d) :
    resultInv ⟨g + b, g, b, d⟩ :=
  ⟨rfl, Nat.zero_le _, Nat.zero_le _, h.1, h.2⟩

/-- C1: For every run of any of the five analyzers, at every point of the
stream (i.e. after any prefix of the sampled frames) and in the final
`AnalysisResult`, `total_reps = good_reps + bad_reps` with both counters
non-negative, `rep_details` has length `total_reps`, and the `rep` fields of
the `RepResult` records in `rep_details` are exactly `1, 2, ..., total_reps`
in order. -/
theorem C1_analyzers_rep_invariant
    (fps : List (Option PushupFrame)) (fpl : List (Option PullupFrame))
    (fbp : List (Option BenchFrame)) (fcu : List (Option CurlFrame))
    (fcr : List (Option CrunchFrame)) (n : ℕ) :
    (RepInv (pushupRun (fps.take n)).good (pushupRun (fps.take n)).bad
        (pushupRun (fps.take n)).rep_details ∧
      RepInv (pullupRun (fpl.take n)).good (pullupRun (fpl.take n)).bad
        (pullupRun (fpl.take n)).rep_details ∧
      RepInv (benchRun (fbp.take n)).good (benchRun (fbp.take n)).bad
        (benchRun (fbp.take n)).rep_details ∧
      RepInv (curlRun (fcu.take n)).good (curlRun (fcu.take n)).bad
        (curlRun (fcu.take n)).rep_details ∧
      RepInv (crunchRun (fcr.take n)).good (crunchRun (fcr.take n)).bad
        (crunchRun (fcr.take n)).rep_details) ∧
    (resultInv (pushupResult fps) ∧ resultInv (pullupResult fpl) ∧
      resultInv (benchResult fbp) ∧ resultInv (curlResult fcu) ∧
      resultInv (crunchResult fcr)) := by
  refine ⟨⟨?_, ?_, ?_, ?_, ?_⟩, ?_, ?_, ?_, ?_, ?_⟩
  · exact pushupRun_repInv _
  · exact pullupRun_repInv _
  · exact benchRun_repInv _
  · exact curlRun_repInv _
  · exact crunchRun_repInv _
  · exact resultInv_mk _ _ _ (pushupRun_repInv fps)
  · exact resultInv_mk _ _ _ (pullupRun_repInv fpl)
  · exact resultInv_mk _ _ _ (benchRun_repInv fbp)
  · exact resultInv_mk _ _ _ (curlRun_repInv fcu)
  · exact resultInv_mk _ _ _ (crunchRun_repInv fcr)

-- ──────────────────────── Closing-edge characterisation (C2) ────────────────────────

/-- The push-up closing-edge condition: after the entry conditional of this
frame the machine is in the DOWN (active) phase and the torso has crossed back
above `up_thresh`. -/
def pushupCloses (s : PushupState) (f : PushupFrame) : Bool :=
  let c := calibUpdate s.minmax f.torso_y
  decide ((if s.state = "up" ∧ f.torso_y > pushupDownThresh c.1 c.2 then "down"
      else s.state) = "down")
    && decide (f.torso_y < pushupUpThresh c.1 c.2)

/-- The flare samples the push-up window holds at the end of this frame
(cleared on an entry edge, extended by this frame's flare when positive). -/
def pushupWindowSamples (s : PushupState) (f : PushupFrame) : List ℚ :=
  let c := calibUpdate s.minmax f.torso_y
  let angles1 :=
    if s.state = "up" ∧ f.torso_y > pushupDownThresh c.1 c.2 then ([] : List ℚ)
    else s.current_rep_angles
  if f.flare > 0 then angles1 ++ [f.flare] else angles1

theorem pushupStep_details_eq (s : PushupState) (f : PushupFrame) :
    (pushupStep s (some f)).rep_details =
      s.rep_details ++
        (if pushupCloses s f = true ∧ pushupWindowSamples s f ≠ [] then
          [gradePushupRep (pushupWindowSamples s f) (s.good + s.bad + 1)]
        else []) := by
  unfold pushupStep pushupCloses pushupWindowSamples appendGraded
  dsimp only
  simp only [Bool.and_eq_true, decide_eq_true_eq]
  split_ifs <;> simp_all

/-- The pull-up closing-edge condition: in the UP (active) phase after the
entry conditional and the head has dropped back below `bottom_thresh`. -/
def pullupCloses (s : PullupState) (f : PullupFrame) : Bool :=
  let c := calibUpdate s.minmax f.head_y
  decide ((if s.state = "down" ∧ f.head_y < pullupTopThresh c.1 c.2 then "up"
      else s.state) = "up")
    && decide (f.head_y > pullupBottomThresh c.1 c.2)

/-- The chin-above-bar flag at the end of this frame (reset on an entry edge,
set when the nose is above the mean visible shoulder). -/
def pullupChinFlag (s : PullupState) (f : PullupFrame) : Bool :=
  let c := calibUpdate s.minmax f.head_y
  let chin1 :=
    if s.state = "down" ∧ f.head_y < pullupTopThresh c.1 c.2 then false
    else s.chin_above_bar
  match f.shoulder_y with
  | some sy => if f.head_y < sy then true else chin1
  | none => chin1

theorem pullupStep_details_eq (s : PullupState) (f : PullupFrame) :
    (pullupStep s (some f)).rep_details =
      s.rep_details ++
        (if pullupCloses s f = true then
          [gradePullupRep (pullupChinFlag s f) (s.good + s.bad + 1)]
        else []) := by
  unfold pullupStep pullupCloses pullupChinFlag appendGraded
  dsimp only
  simp only [Bool.and_eq_true, decide_eq_true_eq]
  split_ifs <;> simp_all

/-- The bench-press closing-edge condition: in the DOWN (active) phase after
the entry conditional and the wrist has crossed back above `up_thresh`. -/
def benchCloses (s : BenchState) (f : BenchFrame) : Bool :=
  let c := calibUpdate s.minmax f.wrist_y
  decide ((if s.state = "up" ∧ f.wrist_y > benchDownThresh c.1 c.2 then "down"
      else s.state) = "down")
    && decide (f.wrist_y < benchUpThresh c.1 c.2)

/-- The elbow-angle samples the bench window holds at the end of this frame
(cleared on an entry edge, always extended by this frame's elbow angle). -/
def benchWindowSamples (s : BenchState) (f : BenchFrame) : List ℚ :=
  let c := calibUpdate s.minmax f.wrist_y
  (if s.state = "up" ∧ f.wrist_y > benchDownThresh c.1 c.2 then ([] : List ℚ)
   else s.current_rep_bottom_angles) ++ [f.elbow_angle]

theorem benchStep_details_eq (s : BenchState) (f : BenchFrame) :
    (benchStep s (some f)).rep_details =
      s.rep_details ++
        (if benchCloses s f = true then
          [gradeBenchRep (benchWindowSamples s f) f.elbow_angle (s.good + s.bad + 1)]
        else []) := by
  unfold benchStep benchCloses benchWindowSamples appendGraded
  dsimp only
  simp only [Bool.and_eq_true, decide_eq_true_eq]
  split_ifs <;> simp_all

/-- The curls closing-edge condition: in the UP (active) phase after the entry
conditional and the elbow angle has re-extended past `extend_thresh`. -/
def curlCloses (s : CurlState) (f : CurlFrame) : Bool :=
  let c := calibUpdate s.minmax f.elbow_angle
  decide ((if s.state = "down" ∧ f.elbow_angle < curlCurlThresh c.1 c.2 then "up"
      else s.state) = "up")
    && decide (f.elbow_angle > curlExtendThresh c.1 c.2)

/-- The elbow-angle samples the curls window holds at the end of this frame. -/
def curlWindowSamples (s : CurlState) (f : CurlFrame) : List ℚ :=
  let c := calibUpdate s.minmax f.elbow_angle
  (if s.state = "down" ∧ f.elbow_angle < curlCurlThresh c.1 c.2 then ([] : List ℚ)
   else s.current_rep_angles) ++ [f.elbow_angle]

/-- The upper-arm-angle samples the curls window holds at the end of this frame. -/
def curlUaSamples (s : CurlState) (f : CurlFrame) : List ℚ :=
  let c := calibUpdate s.minmax f.elbow_angle
  let ua1 :=
    if s.state = "down" ∧ f.elbow_angle < curlCurlThresh c.1 c.2 then ([] : List ℚ)
    else s.upper_arm_angles
  match f.ua_angle with
  | some ua => ua1 ++ [ua]
  | none => ua1

theorem curlStep_details_eq (s : CurlState) (f : CurlFrame) :
    (curlStep s (some f)).rep_details =
      s.rep_details ++
        (if curlCloses s f = true then
          [gradeCurlRep (curlWindowSamples s f) (curlUaSamples s f) (s.good + s.bad + 1)]
        else []) := by
  unfold curlStep curlCloses curlWindowSamples curlUaSamples appendGraded
  dsimp only
  simp only [Bool.and_eq_true, decide_eq_true_eq]
  split_ifs <;> simp_all

/-- The crunches closing-edge condition: in the UP (active) phase after the
entry conditional and the shoulder has dropped back below `down_thresh`. -/
def crunchCloses (s : CrunchState) (f : CrunchFrame) : Bool :=
  let c := calibUpdate s.minmax f.shoulder_y
  decide ((if s.state = "down" ∧ f.shoulder_y < crunchUpThresh c.1 c.2 then "up"
      else s.state) = "up")
    && decide (f.shoulder_y > crunchDownThresh c.1 c.2)

/-- The trunk-angle samples the crunch window holds at the end of this frame. -/
def crunchWindowSamples (s : CrunchState) (f : CrunchFrame) : List ℚ :=
  let c := calibUpdate s.minmax f.shoulder_y
  (if s.state = "down" ∧ f.shoulder_y < crunchUpThresh c.1 c.2 then ([] : List ℚ)
   else s.current_rep_lifts) ++ [f.trunk_angle]

theorem crunchStep_details_eq (s : CrunchState) (f : CrunchFrame) :
    (crunchStep s (some f)).rep_details =
      s.rep_details ++
        (if crunchCloses s f = true then
          [gradeCrunchRep (crunchWindowSamples s f)
            (f.nose_y.map (fun ny => |ny - f.shoulder_y|)) (s.good + s.bad + 1)]
        else []) := by
  unfold crunchStep crunchCloses crunchWindowSamples appendGraded
  dsimp only
  simp only [Bool.and_eq_true, decide_eq_true_eq]
  split_ifs <;> simp_all

/-- C2 counterexample: a push-up stream whose flare signal is never positive.
The torso signal (0, 100, 0) drives the machine UP→DOWN on the second frame and
DOWN→UP (a closing transition, `pushupCloses` holds) on the third, yet
`rep_details` stays empty: the grader is skipped on a closing edge whose window
holds no flare samples, refuting the claim that every closing transition
appends exactly one `RepResult`. -/
theorem C2_counterexample_pushup_silent_close :
    (pushupRun [some ⟨0, 0⟩, some ⟨100, 0⟩]).state = "down" ∧
    pushupCloses (pushupRun [some ⟨0, 0⟩, some ⟨100, 0⟩]) ⟨0, 0⟩ = true ∧
    (pushupRun [some ⟨0, 0⟩, some ⟨100, 0⟩, some ⟨0, 0⟩]).state = "up" ∧
    (pushupRun [some ⟨0, 0⟩, some ⟨100, 0⟩, some ⟨0, 0⟩]).rep_details = [] := by
  norm_num [pushupRun, pushupInit, pushupStep, pushupCloses, calibUpdate,
    pushupDownThresh, pushupUpThresh, List.foldl]

/-- C2 (amended): for every exercise, a `RepResult` is appended exactly on a
closing transition edge (`...Closes`), and it is exactly the one record the
grader produces for the accumulated window — with the push-up proviso forced by
the counterexample: a push-up closing edge whose window holds no flare samples
appends nothing.  Skipped frames and all non-closing frames (entry edges
included) leave `rep_details` unchanged. -/
theorem C2_grading_exactly_on_close_edge :
    (∀ (s : PushupState) (f : PushupFrame),
        (pushupStep s (some f)).rep_details =
          s.rep_details ++
            (if pushupCloses s f = true ∧ pushupWindowSamples s f ≠ [] then
              [gradePushupRep (pushupWindowSamples s f) (s.good + s.bad + 1)]
            else [])) ∧
    (∀ (s : PullupState) (f : PullupFrame),
        (pullupStep s (some f)).rep_details =
          s.rep_details ++
            (if pullupCloses s f = true then
              [gradePullupRep (pullupChinFlag s f) (s.good + s.bad + 1)]
            else [])) ∧
    (∀ (s : BenchState) (f : BenchFrame),
        (benchStep s (some f)).rep_details =
          s.rep_details ++
            (if benchCloses s f = true then
              [gradeBenchRep (benchWindowSamples s f) f.elbow_angle (s.good + s.bad + 1)]
            else [])) ∧
    (∀ (s : CurlState) (f : CurlFrame),
        (curlStep s (some f)).rep_details =
          s.rep_details ++
            (if curlCloses s f = true then
              [gradeCurlRep (curlWindowSamples s f) (curlUaSamples s f) (s.good + s.bad + 1)]
            else [])) ∧
    (∀ (s : CrunchState) (f : CrunchFrame),
        (crunchStep s (some f)).rep_details =
          s.rep_details ++
            (if crunchCloses s f = true then
              [gradeCrunchRep (crunchWindowSamples s f)
                (f.nose_y.map (fun ny => |ny - f.shoulder_y|)) (s.good + s.bad + 1)]
            else [])) ∧
    (∀ (s : PushupState), (pushupStep s none).rep_details = s.rep_details) ∧
    (∀ (s : PullupState), (pullupStep s none).rep_details = s.rep_details) ∧
    (∀ (s : BenchState), (benchStep s none).rep_details = s.rep_details) ∧
    (∀ (s : CurlState), (curlStep s none).rep_details = s.rep_details) ∧
    (∀ (s : CrunchState), (crunchStep s none).rep_details = s.rep_details) :=
  ⟨pushupStep_details_eq, pullupStep_details_eq, benchStep_details_eq,
    curlStep_details_eq, crunchStep_details_eq,
    fun _ => rfl, fun _ => rfl, fun _ => rfl, fun _ => rfl, fun _ => rfl⟩

-- ──────────────────────── Substring helpers ────────────────────────

theorem containsClause_of_parts (clause pre post s : String)
    (h : s = pre ++ clause ++ post) : containsClause clause s := ⟨pre, post, h⟩

theorem containsClause_refl (c : String) : containsClause c c :=
  ⟨"", "", by rw [String.empty_append, String.append_empty]⟩

theorem containsClause_append_left (c s t : String) (h : containsClause c s) :
    containsClause c (s ++ t) := by
  obtain ⟨p, q, rfl⟩ := h
  exact ⟨p, q ++ t, by simp [String.append_assoc]⟩

theorem containsClause_append_right (c t s : String) (h : containsClause c s) :
    containsClause c (t ++ s) := by
  obtain ⟨p, q, rfl⟩ := h
  exact ⟨t ++ p, q, by simp [String.append_assoc]⟩

theorem containsClause_trans (a b s : String) (hab : containsClause a b)
    (hbs : containsClause b s) : containsClause a s := by
  obtain ⟨p, q, rfl⟩ := hab
  obtain ⟨u, v, rfl⟩ := hbs
  exact ⟨u ++ p, q ++ v, by simp [String.append_assoc]⟩

/-- A clause that is one of the joined parts occurs in the joined string. -/
theorem containsClause_join (sep c : String) (l : List String) (hc : c ∈ l) :
    containsClause c (joinStrings sep l) := by
  induction l with
  | nil => cases hc
  | cons a t ih =>
    cases t with
    | nil =>
      rcases List.mem_singleton.mp hc with rfl
      exact containsClause_refl c
    | cons b t2 =>
      rcases List.mem_cons.mp hc with rfl | hmem
      · exact containsClause_append_left _ _ _
          (containsClause_append_left _ _ _ (containsClause_refl c))
      · exact containsClause_append_right _ _ _ (ih hmem)

-- ──────────────────────── C3: push-up grading ────────────────────────

/-- C3: for every push-up rep-window closure with a non-empty list of flare
samples, the rep is graded "good" exactly when the median of the samples is at
most 75° (and "bad" exactly when it exceeds 75°, with feedback mentioning
"flare"); the recorded `metric_value` is that median rounded to one decimal. -/
theorem C3_pushup_grading (angles : List ℚ) (n : ℕ) (hne : angles ≠ []) :
    ((gradePushupRep angles n).status = "good" ↔ npMedian angles ≤ pushupThreshold) ∧
    ((gradePushupRep angles n).status = "bad" ↔ pushupThreshold < npMedian angles) ∧
    (gradePushupRep angles n).metric_value = roundTo1 (npMedian angles) ∧
    (pushupThreshold < npMedian angles →
      containsClause "flare" (gradePushupRep angles n).feedback) := by
  unfold gradePushupRep
  dsimp only
  split_ifs with h
  · simp only [gt_iff_lt] at h
    refine ⟨?_, ?_, rfl, fun _ => ?_⟩
    · dsimp only
      constructor
      · intro hgb; simp at hgb
      · intro hle; exact absurd h (not_lt.mpr hle)
    · dsimp only
      simpa using h
    · dsimp only
      exact containsClause_append_left _ _ _ (containsClause_append_left _ _ _
        (containsClause_append_left _ _ _ (containsClause_append_left _ _ _
          (containsClause_of_parts _ "Elbow " " too wide (" _ (by decide)))))
  · simp only [gt_iff_lt, not_lt] at h
    refine ⟨?_, ?_, rfl, fun hlt => absurd hlt (not_lt.mpr h)⟩
    · dsimp only
      simpa using h
    · dsimp only
      constructor
      · intro hgb; simp at hgb
      · intro hlt; exact absurd hlt (not_lt.mpr h)

/-- C3 witness: the spec's concrete examples, samples `[60, 62, 61]` (median 61)
grade "good" and `[80, 82, 81]` (median 81) grade "bad" with feedback
mentioning "flare". -/
theorem C3_pushup_grading_witness :
    (gradePushupRep [60, 62, 61] 1).status = "good" ∧
    (gradePushupRep [80, 82, 81] 2).status = "bad" ∧
    containsClause "flare" (gradePushupRep [80, 82, 81] 2).feedback := by
  have h1 := C3_pushup_grading [60, 62, 61] 1 (by simp)
  have h2 := C3_pushup_grading [80, 82, 81] 2 (by simp)
  have m1 : npMedian [60, 62, 61] = 61 := by
    norm_num [npMedian, sortAsc, insertAsc, List.foldr, List.getD]
  have m2 : npMedian [80, 82, 81] = 81 := by
    norm_num [npMedian, sortAsc, insertAsc, List.foldr, List.getD]
  refine ⟨h1.1.mpr ?_, h2.2.1.mpr ?_, h2.2.2.2 ?_⟩
  · rw [m1, pushupThreshold]; norm_num
  · rw [m2, pushupThreshold]; norm_num
  · rw [m2, pushupThreshold]; norm_num

-- ──────────────────────── C4: bench-press grading ────────────────────────

theorem benchIssues_nil_iff (m : ℚ) (lock : Bool) :
    benchIssues m lock = [] ↔ (¬ m < 70 ∧ ¬ m > 110 ∧ lock = true) := by
  unfold benchIssues
  split_ifs with h1 h2 h3 <;> simp_all

theorem benchIssues_mem_deep (m : ℚ) (lock : Bool) (hm : m < 70) :
    ("Went too deep (" ++ toString (roundTo1 m) ++ "°). Aim for 80-100° at bottom.")
      ∈ benchIssues m lock := by
  unfold benchIssues
  rw [if_pos hm]
  exact List.mem_append_left _ (List.mem_singleton.mpr rfl)

theorem benchIssues_mem_insuff (m : ℚ) (lock : Bool) (hm : m > 110) :
    ("Insufficient depth (" ++ toString (roundTo1 m) ++ "°). Lower the bar more.")
      ∈ benchIssues m lock := by
  unfold benchIssues
  rw [if_neg (by intro hc; linarith), if_pos hm]
  exact List.mem_append_left _ (List.mem_singleton.mpr rfl)

theorem benchIssues_mem_lockout (m : ℚ) :
    ("Did not fully lock out at the top.") ∈ benchIssues m false := by
  unfold benchIssues
  exact List.mem_append_right _ (by simp)

theorem containsClause_benchDeep (m : ℚ) :
    containsClause "too deep"
      ("Went too deep (" ++ toString (roundTo1 m) ++ "°). Aim for 80-100° at bottom.") :=
  containsClause_append_left _ _ _ (containsClause_append_left _ _ _
    (containsClause_of_parts _ "Went " " (" _ (by decide)))

theorem containsClause_benchInsuff (m : ℚ) :
    containsClause "Insufficient depth"
      ("Insufficient depth (" ++ toString (roundTo1 m) ++ "°). Lower the bar more.") :=
  containsClause_append_left _ _ _ (containsClause_append_left _ _ _
    (containsClause_of_parts _ "" " (" _ (by decide)))

/-- C4: every bench-press rep-window closure is graded "good" exactly when the
minimum elbow angle over the window lies in [70°, 110°] and the closing frame's
elbow angle exceeds 160°; each violated condition contributes its own clause
("too deep" / "Insufficient depth" / "Did not fully lock out"), all fired
clauses are joined into the one feedback string, and `metric_value` is the
minimum angle rounded to one decimal. -/
theorem C4_bench_grading (angles : List ℚ) (final_angle : ℚ) (n : ℕ)
    (hne : angles ≠ []) :
    ((gradeBenchRep angles final_angle n).status = "good" ↔
      (70 ≤ npMinD angles 0 ∧ npMinD angles 0 ≤ 110 ∧ final_angle > 160)) ∧
    (gradeBenchRep angles final_angle n).metric_value = roundTo1 (npMinD angles 0) ∧
    ((gradeBenchRep angles final_angle n).status = "bad" →
      (gradeBenchRep angles final_angle n).feedback =
        joinStrings " " (benchIssues (npMinD angles 0) (decide (final_angle > 160)))) ∧
    (npMinD angles 0 < 70 →
      containsClause "too deep" (gradeBenchRep angles final_angle n).feedback) ∧
    (npMinD angles 0 > 110 →
      containsClause "Insufficient depth" (gradeBenchRep angles final_angle n).feedback) ∧
    (¬ final_angle > 160 →
      containsClause "Did not fully lock out" (gradeBenchRep angles final_angle n).feedback) := by
  unfold gradeBenchRep
  dsimp only
  split_ifs with h
  · refine ⟨?_, rfl, fun _ => rfl, fun hm => ?_, fun hm => ?_, fun hl => ?_⟩
    · dsimp only
      constructor
      · intro hgb; simp at hgb
      · rintro ⟨h70, h110, hfin⟩
        exact absurd ((benchIssues_nil_iff _ _).mpr
          ⟨not_lt.mpr h70, not_lt.mpr h110, decide_eq_true hfin⟩) h
    · dsimp only
      exact containsClause_trans _ _ _ (containsClause_benchDeep _)
        (containsClause_join _ _ _ (benchIssues_mem_deep _ _ hm))
    · dsimp only
      exact containsClause_trans _ _ _ (containsClause_benchInsuff _)
        (containsClause_join _ _ _ (benchIssues_mem_insuff _ _ hm))
    · dsimp only
      rw [decide_eq_false hl]
      exact containsClause_trans _ _ _
        (containsClause_of_parts _ "" " at the top." _ (by decide))
        (containsClause_join _ _ _ (benchIssues_mem_lockout _))
  · have hnil : benchIssues (npMinD angles 0) (decide (final_angle > 160)) = [] :=
      not_not.mp h
    obtain ⟨h70, h110, hlock⟩ := (benchIssues_nil_iff _ _).mp hnil
    refine ⟨?_, rfl, fun hgb => by simp at hgb, fun hm => absurd hm h70,
      fun hm => absurd hm h110, fun hl => absurd (of_decide_eq_true hlock) hl⟩
    dsimp only
    simp only [true_iff]
    exact ⟨not_lt.mp h70, not_lt.mp h110, of_decide_eq_true hlock⟩

/-- C4 witness: the spec's end-to-end scenario, minimum 95° with final angle
170° grades "good" with metric 95.0, and minimum 60° with final 150° grades
"bad" with both the depth and the lockout clauses in the feedback. -/
theorem C4_bench_grading_witness :
    (gradeBenchRep [95] 170 1).status = "good" ∧
    (gradeBenchRep [95] 170 1).metric_value = 95 ∧
    (gradeBenchRep [60] 150 2).status = "bad" ∧
    containsClause "too deep" (gradeBenchRep [60] 150 2).feedback ∧
    containsClause "Did not fully lock out" (gradeBenchRep [60] 150 2).feedback := by
  have h1 := C4_bench_grading [95] 170 1 (by simp)
  have h2 := C4_bench_grading [60] 150 2 (by simp)
  have m1 : npMinD [95] 0 = 95 := rfl
  have m2 : npMinD [60] 0 = 60 := rfl
  have hb : (gradeBenchRep [60] 150 2).status = "bad" := by
    rcases gradeBenchRep_status [60] 150 2 with hg | hbad
    · exfalso
      have hx := h2.1.mp hg
      rw [m2] at hx
      norm_num at hx
    · exact hbad
  refine ⟨h1.1.mpr ⟨?_, ?_, ?_⟩, ?_, hb, h2.2.2.2.1 ?_, h2.2.2.2.2.2 ?_⟩
  · rw [m1]; norm_num
  · rw [m1]; norm_num
  · norm_num
  · have := h1.2.1
    rw [m1] at this
    rw [this]
    norm_num [roundTo1, roundHalfEven]
  · rw [m2]; norm_num
  · norm_num

-- ──────────────────────── C5: load suggestion ────────────────────────

/-- C5: `generate_load_suggestion` is a pure function of
`(good_reps, total_reps)` — the exercise name is ignored — mapping to the zero
case plus exactly four tiers of `ratio = good_reps / total_reps`:
`total_reps == 0` → the "no reps detected" message, `ratio == 1` → praise and
increased difficulty, `ratio ≥ 0.75` → "maintain load", `ratio ≥ 0.5` →
"reduce 5-10%", anything smaller → "reduce significantly". -/
theorem C5_load_suggestion_tiers (e e2 : String) (good_reps total_reps : ℕ) :
    (generate_load_suggestion e good_reps total_reps =
      generate_load_suggestion e2 good_reps total_reps) ∧
    (total_reps = 0 → generate_load_suggestion e good_reps total_reps = noRepsMsg) ∧
    (total_reps ≠ 0 →
      ((good_reps : ℚ) / (total_reps : ℚ) = 1 →
        generate_load_suggestion e good_reps total_reps = excellentMsg total_reps) ∧
      ((good_reps : ℚ) / (total_reps : ℚ) ≠ 1 →
        (good_reps : ℚ) / (total_reps : ℚ) ≥ 75/100 →
        generate_load_suggestion e good_reps total_reps = maintainMsg good_reps total_reps) ∧
      (¬ (good_reps : ℚ) / (total_reps : ℚ) ≥ 75/100 →
        (good_reps : ℚ) / (total_reps : ℚ) ≥ 5/10 →
        generate_load_suggestion e good_reps total_reps = reduceMsg good_reps total_reps) ∧
      (¬ (good_reps : ℚ) / (total_reps : ℚ) ≥ 5/10 →
        generate_load_suggestion e good_reps total_reps = reduceBigMsg good_reps total_reps)) := by
  refine ⟨rfl, fun ht => ?_, fun ht =>
    ⟨fun hr => ?_, fun hne hge => ?_, fun hlt hge => ?_, fun hlt => ?_⟩⟩
  · unfold generate_load_suggestion
    rw [if_pos ht]
  · unfold generate_load_suggestion
    rw [if_neg ht]
    dsimp only
    rw [if_pos hr]
  · unfold generate_load_suggestion
    rw [if_neg ht]
    dsimp only
    rw [if_neg hne, if_pos hge]
  · have hne : ¬ (good_reps : ℚ) / (total_reps : ℚ) = 1 := by
      intro hh
      rw [hh] at hlt
      norm_num at hlt
    unfold generate_load_suggestion
    rw [if_neg ht]
    dsimp only
    rw [if_neg hne, if_neg hlt, if_pos hge]
  · have hne : ¬ (good_reps : ℚ) / (total_reps : ℚ) = 1 := by
      intro hh
      rw [hh] at hlt
      norm_num at hlt
    have hlt2 : ¬ (good_reps : ℚ) / (total_reps : ℚ) ≥ 75/100 := by
      intro hh
      exact hlt (by linarith)
    unfold generate_load_suggestion
    rw [if_neg ht]
    dsimp only
    rw [if_neg hne, if_neg hlt2, if_neg hlt]

/-- C5 witness: one concrete input per tier, plus independence of the exercise
name. -/
theorem C5_load_suggestion_witness :
    generate_load_suggestion "push-ups" 0 0 = noRepsMsg ∧
    generate_load_suggestion "push-ups" 4 4 = excellentMsg 4 ∧
    generate_load_suggestion "push-ups" 3 4 = maintainMsg 3 4 ∧
    generate_load_suggestion "push-ups" 2 4 = reduceMsg 2 4 ∧
    generate_load_suggestion "push-ups" 1 4 = reduceBigMsg 1 4 ∧
    generate_load_suggestion "push-ups" 3 4 = generate_load_suggestion "curls" 3 4 := by
  refine ⟨(C5_load_suggestion_tiers "push-ups" "curls" 0 0).2.1 rfl,
    ((C5_load_suggestion_tiers "push-ups" "curls" 4 4).2.2 (by norm_num)).1 (by norm_num),
    ((C5_load_suggestion_tiers "push-ups" "curls" 3 4).2.2 (by norm_num)).2.1
      (by norm_num) (by norm_num),
    ((C5_load_suggestion_tiers "push-ups" "curls" 2 4).2.2 (by norm_num)).2.2.1
      (by norm_num) (by norm_num),
    ((C5_load_suggestion_tiers "push-ups" "curls" 1 4).2.2 (by norm_num)).2.2.2
      (by norm_num),
    (C5_load_suggestion_tiers "push-ups" "curls" 3 4).1⟩

-- ──────────────────────── C6: calibration bounds ────────────────────────

theorem calibUpdate_le (mm : Option (ℚ × ℚ)) (v : ℚ) :
    (calibUpdate mm v).1 ≤ (calibUpdate mm v).2 := by
  cases mm with
  | none => exact le_refl v
  | some p =>
    obtain ⟨mn, mx⟩ := p
    exact le_trans (min_le_right mn v) (le_max_right mx v)

theorem pushupStep_minmax_some (s : PushupState) (f : PushupFrame) :
    (pushupStep s (some f)).minmax = some (calibUpdate s.minmax f.torso_y) := by
  unfold pushupStep
  dsimp only
  split_ifs <;> rfl

theorem benchStep_minmax_some (s : BenchState) (f : BenchFrame) :
    (benchStep s (some f)).minmax = some (calibUpdate s.minmax f.wrist_y) := by
  unfold benchStep
  dsimp only
  split_ifs <;> rfl

/-- A degenerate (`max = min`) calibration pair pins the frame's primary value
to that single value. -/
theorem calibUpdate_degenerate (mm : Option (ℚ × ℚ)) (v m : ℚ)
    (h : calibUpdate mm v = (m, m)) : v = m := by
  cases mm with
  | none =>
    unfold calibUpdate at h
    injection h
  | some p =>
    obtain ⟨mn, mx⟩ := p
    unfold calibUpdate at h
    injection h with h1 h2
    have hle : m ≤ v := by rw [← h1]; exact min_le_right mn v
    have hge : v ≤ m := by rw [← h2]; exact le_max_right mx v
    exact le_antisymm hge hle

/-- On a frame that leaves the push-up calibration range degenerate
(`max = min`), both thresholds collapse and the frame fires no transition. -/
theorem pushupStep_degenerate (s : PushupState) (f : PushupFrame) (m : ℚ)
    (h : calibUpdate s.minmax f.torso_y = (m, m)) :
    (pushupStep s (some f)).state = s.state ∧
    (pushupStep s (some f)).rep_details = s.rep_details := by
  have htm : f.torso_y = m := calibUpdate_degenerate _ _ _ h
  have hdown : pushupDownThresh m m = m := by norm_num [pushupDownThresh]
  have hup : pushupUpThresh m m = m := by norm_num [pushupUpThresh]
  have hc1 : ¬ (s.state = "up" ∧ f.torso_y >
      pushupDownThresh (calibUpdate s.minmax f.torso_y).1
        (calibUpdate s.minmax f.torso_y).2) := by
    rw [h]
    dsimp only
    rw [hdown, htm]
    simp [lt_irrefl]
  have hc2 : ¬ (f.torso_y <
      pushupUpThresh (calibUpdate s.minmax f.torso_y).1
        (calibUpdate s.minmax f.torso_y).2) := by
    rw [h]
    dsimp only
    rw [hup, htm]
    exact lt_irrefl m
  constructor <;>
  · unfold pushupStep
    dsimp only
    rw [if_neg hc1, if_neg hc1]
    split_ifs <;> rfl

/-- On a frame that leaves the bench calibration range degenerate
(`max = min`), both thresholds collapse and the frame fires no transition. -/
theorem benchStep_degenerate (s : BenchState) (f : BenchFrame) (m : ℚ)
    (h : calibUpdate s.minmax f.wrist_y = (m, m)) :
    (benchStep s (some f)).state = s.state ∧
    (benchStep s (some f)).rep_details = s.rep_details := by
  have htm : f.wrist_y = m := calibUpdate_degenerate _ _ _ h
  have hdown : benchDownThresh m m = m := by norm_num [benchDownThresh]
  have hup : benchUpThresh m m = m := by norm_num [benchUpThresh]
  have hc1 : ¬ (s.state = "up" ∧ f.wrist_y >
      benchDownThresh (calibUpdate s.minmax f.wrist_y).1
        (calibUpdate s.minmax f.wrist_y).2) := by
    rw [h]
    dsimp only
    rw [hdown, htm]
    simp [lt_irrefl]
  have hc2 : ¬ (f.wrist_y <
      benchUpThresh (calibUpdate s.minmax f.wrist_y).1
        (calibUpdate s.minmax f.wrist_y).2) := by
    rw [h]
    dsimp only
    rw [hup, htm]
    exact lt_irrefl m
  constructor <;>
  · unfold benchStep
    dsimp only
    rw [if_neg hc1, if_neg hc1, if_neg hc1]
    split_ifs <;> rfl

theorem pushupStep_minmax_le (s : PushupState) (fr : Option PushupFrame)
    (h : ∀ mn mx, s.minmax = some (mn, mx) → mn ≤ mx) :
    ∀ mn mx, (pushupStep s fr).minmax = some (mn, mx) → mn ≤ mx := by
  cases fr with
  | none => exact h
  | some f =>
    intro mn mx hs
    rw [pushupStep_minmax_some] at hs
    have hc := calibUpdate_le s.minmax f.torso_y
    rw [Option.some.inj hs] at hc
    exact hc

theorem benchStep_minmax_le (s : BenchState) (fr : Option BenchFrame)
    (h : ∀ mn mx, s.minmax = some (mn, mx) → mn ≤ mx) :
    ∀ mn mx, (benchStep s fr).minmax = some (mn, mx) → mn ≤ mx := by
  cases fr with
  | none => exact h
  | some f =>
    intro mn mx hs
    rw [benchStep_minmax_some] at hs
    have hc := calibUpdate_le s.minmax f.wrist_y
    rw [Option.some.inj hs] at hc
    exact hc

theorem pushupRun_minmax_le (l : List (Option PushupFrame)) :
    ∀ mn mx, (pushupRun l).minmax = some (mn, mx) → mn ≤ mx := by
  apply foldl_preserve
    (fun s : PushupState => ∀ mn mx, s.minmax = some (mn, mx) → mn ≤ mx)
    pushupStep pushupStep_minmax_le l pushupInit
  intro mn mx hs
  exact absurd hs (by simp [pushupInit])

theorem benchRun_minmax_le (l : List (Option BenchFrame)) :
    ∀ mn mx, (benchRun l).minmax = some (mn, mx) → mn ≤ mx := by
  apply foldl_preserve
    (fun s : BenchState => ∀ mn mx, s.minmax = some (mn, mx) → mn ≤ mx)
    benchStep benchStep_minmax_le l benchInit
  intro mn mx hs
  exact absurd hs (by simp [benchInit])

theorem pushupRun_minmax_widens (l : List (Option PushupFrame))
    (f : Option PushupFrame) (mn mx : ℚ)
    (h : (pushupRun l).minmax = some (mn, mx)) :
    ∃ mn2 mx2, (pushupRun (l ++ [f])).minmax = some (mn2, mx2) ∧
      mn2 ≤ mn ∧ mx ≤ mx2 := by
  rw [pushupRun, List.foldl_append]
  cases f with
  | none => exact ⟨mn, mx, h, le_refl _, le_refl _⟩
  | some fr =>
    refine ⟨(calibUpdate (pushupRun l).minmax fr.torso_y).1,
      (calibUpdate (pushupRun l).minmax fr.torso_y).2, ?_, ?_, ?_⟩
    · show (pushupStep (pushupRun l) (some fr)).minmax = _
      rw [pushupStep_minmax_some]
    · rw [h]
      exact min_le_left mn fr.torso_y
    · rw [h]
      exact le_max_left mx fr.torso_y

theorem benchRun_minmax_widens (l : List (Option BenchFrame))
    (f : Option BenchFrame) (mn mx : ℚ)
    (h : (benchRun l).minmax = some (mn, mx)) :
    ∃ mn2 mx2, (benchRun (l ++ [f])).minmax = some (mn2, mx2) ∧
      mn2 ≤ mn ∧ mx ≤ mx2 := by
  rw [benchRun, List.foldl_append]
  cases f with
  | none => exact ⟨mn, mx, h, le_refl _, le_refl _⟩
  | some fr =>
    refine ⟨(calibUpdate (benchRun l).minmax fr.wrist_y).1,
      (calibUpdate (benchRun l).minmax fr.wrist_y).2, ?_, ?_, ?_⟩
    · show (benchStep (benchRun l) (some fr)).minmax = _
      rw [benchStep_minmax_some]
    · rw [h]
      exact min_le_left mn fr.wrist_y
    · rw [h]
      exact le_max_left mx fr.wrist_y

theorem pushupRun_degenerate (l : List (Option PushupFrame))
    (f : Option PushupFrame) (m : ℚ)
    (h : (pushupRun (l ++ [f])).minmax = some (m, m)) :
    pushupDownThresh m m = m ∧ pushupUpThresh m m = m ∧
    (pushupRun (l ++ [f])).state = (pushupRun l).state := by
  refine ⟨by norm_num [pushupDownThresh], by norm_num [pushupUpThresh], ?_⟩
  rw [pushupRun, List.foldl_append] at h ⊢
  cases f with
  | none => rfl
  | some fr =>
    have hset := pushupStep_minmax_some (pushupRun l) fr
    have hcal : calibUpdate (pushupRun l).minmax fr.torso_y = (m, m) := by
      have : (pushupStep (pushupRun l) (some fr)).minmax = some (m, m) := h
      rw [hset] at this
      exact Option.some.inj this
    exact (pushupStep_degenerate (pushupRun l) fr m hcal).1

theorem benchRun_degenerate (l : List (Option BenchFrame))
    (f : Option BenchFrame) (m : ℚ)
    (h : (benchRun (l ++ [f])).minmax = some (m, m)) :
    benchDownThresh m m = m ∧ benchUpThresh m m = m ∧
    (benchRun (l ++ [f])).state = (benchRun l).state := by
  refine ⟨by norm_num [benchDownThresh], by norm_num [benchUpThresh], ?_⟩
  rw [benchRun, List.foldl_append] at h ⊢
  cases f with
  | none => rfl
  | some fr =>
    have hset := benchStep_minmax_some (benchRun l) fr
    have hcal : calibUpdate (benchRun l).minmax fr.wrist_y = (m, m) := by
      have : (benchStep (benchRun l) (some fr)).minmax = some (m, m) := h
      rw [hset] at this
      exact Option.some.inj this
    exact (benchStep_degenerate (benchRun l) fr m hcal).1

/-- C6: throughout every push-up and bench-press run the calibration bounds
only widen: the first valid primary value seeds `min = max`, processing one
more frame never increases the minimum or decreases the maximum,
`min ≤ max` always holds, and whenever the range is degenerate (`max = min`)
both derived thresholds collapse to that single value and the frame that made
it degenerate fires no phase transition. -/
theorem C6_calibration_monotone :
    (∀ (l : List (Option PushupFrame)) (mn mx : ℚ),
        (pushupRun l).minmax = some (mn, mx) → mn ≤ mx) ∧
    (∀ (s : PushupState) (f : PushupFrame), s.minmax = none →
        (pushupStep s (some f)).minmax = some (f.torso_y, f.torso_y)) ∧
    (∀ (l : List (Option PushupFrame)) (f : Option PushupFrame) (mn mx : ℚ),
        (pushupRun l).minmax = some (mn, mx) →
        ∃ mn2 mx2, (pushupRun (l ++ [f])).minmax = some (mn2, mx2) ∧
          mn2 ≤ mn ∧ mx ≤ mx2) ∧
    (∀ (l : List (Option PushupFrame)) (f : Option PushupFrame) (m : ℚ),
        (pushupRun (l ++ [f])).minmax = some (m, m) →
        pushupDownThresh m m = m ∧ pushupUpThresh m m = m ∧
        (pushupRun (l ++ [f])).state = (pushupRun l).state) ∧
    (∀ (l : List (Option BenchFrame)) (mn mx : ℚ),
        (benchRun l).minmax = some (mn, mx) → mn ≤ mx) ∧
    (∀ (s : BenchState) (f : BenchFrame), s.minmax = none →
        (benchStep s (some f)).minmax = some (f.wrist_y, f.wrist_y)) ∧
    (∀ (l : List (Option BenchFrame)) (f : Option BenchFrame) (mn mx : ℚ),
        (benchRun l).minmax = some (mn, mx) →
        ∃ mn2 mx2, (benchRun (l ++ [f])).minmax = some (mn2, mx2) ∧
          mn2 ≤ mn ∧ mx ≤ mx2) ∧
    (∀ (l : List (Option BenchFrame)) (f : Option BenchFrame) (m : ℚ),
        (benchRun (l ++ [f])).minmax = some (m, m) →
        benchDownThresh m m = m ∧ benchUpThresh m m = m ∧
        (benchRun (l ++ [f])).state = (benchRun l).state) := by
  refine ⟨fun l => pushupRun_minmax_le l, fun s f hs => ?_,
    pushupRun_minmax_widens, pushupRun_degenerate,
    fun l => benchRun_minmax_le l, fun s f hs => ?_,
    benchRun_minmax_widens, benchRun_degenerate⟩
  · rw [pushupStep_minmax_some, hs]
    rfl
  · rw [benchStep_minmax_some, hs]
    rfl

/-- C6 witness: a one-frame push-up run seeds `min = max = 5`; the theorem
then gives `5 ≤ 5`, the collapsed thresholds, and an unchanged phase on the
degenerate frame. -/
theorem C6_calibration_monotone_witness :
    (pushupRun [some ⟨5, 0⟩]).minmax = some (5, 5) ∧
    (5 : ℚ) ≤ 5 ∧
    (pushupStep pushupInit (some ⟨5, 0⟩)).minmax = some (5, 5) ∧
    pushupDownThresh 5 5 = 5 ∧
    (pushupRun [some ⟨5, 0⟩]).state = (pushupRun []).state := by
  have hrun : (pushupRun [some ⟨5, 0⟩]).minmax = some (5, 5) := by
    norm_num [pushupRun, pushupInit, pushupStep, calibUpdate, List.foldl,
      pushupDownThresh, pushupUpThresh]
  have hrun2 : (pushupRun ([] ++ [some (⟨5, 0⟩ : PushupFrame)])).minmax = some (5, 5) := hrun
  exact ⟨hrun, C6_calibration_monotone.1 [some ⟨5, 0⟩] 5 5 hrun,
    C6_calibration_monotone.2.1 pushupInit ⟨5, 0⟩ rfl,
    (C6_calibration_monotone.2.2.2.1 [] (some ⟨5, 0⟩) 5 hrun2).1,
    (C6_calibration_monotone.2.2.2.1 [] (some ⟨5, 0⟩) 5 hrun2).2.2⟩

-- ──────────────────────── C7: crunch trunk angle ────────────────────────

/-- C7 counterexample: one visible shoulder at (0,0) and one visible hip at
(0,1) give zero horizontal separation and non-zero vertical drop; the source
records a trunk angle of 0 on such a frame while the spec's unguarded
`degrees(atan2(dy, dx))` equals 90. -/
theorem C7_counterexample_vertical_trunk :
    crunchTrunkAngle [⟨0, 0⟩] [⟨0, 1⟩] = 0 ∧
    crunchTrunkAngleSpec [⟨0, 0⟩] [⟨0, 1⟩] = 90 ∧
    crunchTrunkAngle [⟨0, 0⟩] [⟨0, 1⟩] ≠ crunchTrunkAngleSpec [⟨0, 0⟩] [⟨0, 1⟩] := by
  have hcode : crunchTrunkAngle [⟨0, 0⟩] [⟨0, 1⟩] = 0 := by
    unfold crunchTrunkAngle
    norm_num [listMeanR]
  have hat : atan2 1 0 = Real.pi / 2 := by
    norm_num [atan2]
  have hspec : crunchTrunkAngleSpec [⟨0, 0⟩] [⟨0, 1⟩] = 90 := by
    unfold crunchTrunkAngleSpec
    norm_num [listMeanR]
    rw [hat, degrees]
    field_simp
    ring
  refine ⟨hcode, hspec, ?_⟩
  rw [hcode, hspec]
  norm_num

/-- C7 (amended): for every crunches frame with visible shoulder and hip
points, the trunk-angle signal equals `degrees(atan2(hipY − shoulderY,
|shoulderX − hipX|))` over the mean coordinates whenever the horizontal
separation is strictly positive; when the separation is zero the source
records 0 instead of the spec formula's value. -/
theorem C7_crunch_trunk_angle (sh_pts hip_pts : List Pt) :
    (0 < |listMeanR (sh_pts.map Pt.x) - listMeanR (hip_pts.map Pt.x)| →
      crunchTrunkAngle sh_pts hip_pts = crunchTrunkAngleSpec sh_pts hip_pts) ∧
    (|listMeanR (sh_pts.map Pt.x) - listMeanR (hip_pts.map Pt.x)| = 0 →
      crunchTrunkAngle sh_pts hip_pts = 0) := by
  constructor
  · intro hdx
    unfold crunchTrunkAngle crunchTrunkAngleSpec
    dsimp only
    rw [if_pos hdx]
  · intro hdx
    unfold crunchTrunkAngle
    dsimp only
    rw [if_neg (by rw [hdx]; exact lt_irrefl 0)]

/-- C7 witness: with shoulder (0,0) and hip (1,1) the horizontal separation is
1 > 0 and the source's trunk angle agrees with the spec formula. -/
theorem C7_crunch_trunk_angle_witness :
    crunchTrunkAngle [⟨0, 0⟩] [⟨1, 1⟩] = crunchTrunkAngleSpec [⟨0, 0⟩] [⟨1, 1⟩] :=
  (C7_crunch_trunk_angle _ _).1 (by norm_num [listMeanR])

-- ──────────────────────── C8: angle-at-vertex totality ────────────────────────

/-- C8: the geometry primitive is total: the normalized dot product is clipped
to [-1, 1] before the inverse cosine (so the `arccos` domain-error branch is
unreachable), a zero-length ray returns exactly 0, and the result always lies
in [0, 180]. -/
theorem C8_calculate_angle_total (a b c : Pt) :
    (-1 ≤ clippedCosine a b c ∧ clippedCosine a b c ≤ 1) ∧
    (Real.sqrt ((a.x - b.x) ^ 2 + (a.y - b.y) ^ 2) = 0 ∨
        Real.sqrt ((c.x - b.x) ^ 2 + (c.y - b.y) ^ 2) = 0 →
      calculate_angle a b c = 0) ∧
    0 ≤ calculate_angle a b c ∧ calculate_angle a b c ≤ 180 := by
  refine ⟨⟨?_, ?_⟩, ?_, ?_, ?_⟩
  · unfold clippedCosine
    exact le_min (by norm_num) (le_max_left _ _)
  · unfold clippedCosine
    exact min_le_left _ _
  · intro hdeg
    unfold calculate_angle
    rw [if_pos hdeg]
  · unfold calculate_angle
    split_ifs
    · exact le_refl 0
    · unfold degrees
      exact div_nonneg (mul_nonneg (Real.arccos_nonneg _) (by norm_num))
        Real.pi_pos.le
  · unfold calculate_angle
    split_ifs
    · norm_num
    · unfold degrees
      rw [div_le_iff₀ Real.pi_pos]
      linarith [Real.arccos_le_pi (clippedCosine a b c)]

/-- C8 witness: a degenerate call (vertex coincides with the first point)
returns exactly 0. -/
theorem C8_calculate_angle_total_witness : calculate_angle ⟨0, 0⟩ ⟨0, 0⟩ ⟨1, 0⟩ = 0 :=
  (C8_calculate_angle_total _ _ _).2.1 (Or.inl (by norm_num))

-- ──────────────────────── C9: dispatch ────────────────────────

/-- C9: `analyze_video` raises (returns an error) exactly for an exercise
identifier whose lowercasing is not one of the five registry keys; the
decision and the error are functions of the identifier alone — the video
plays no part, so the failure happens at call time before any frame is
processed — and each recognized identifier dispatches to that exercise's
analyzer. -/
theorem C9_analyze_video_dispatch (exercise_name : String) (v w : Video) :
    ((analyze_video exercise_name v).isOk = true ↔
      strLower exercise_name ∈
        ["push-ups", "pull-ups", "bench press", "curls", "crunches"]) ∧
    ((analyze_video exercise_name v).isOk = (analyze_video exercise_name w).isOk) ∧
    (strLower exercise_name = "push-ups" →
      analyze_video exercise_name v = .ok (pushupResult v.pushupFrames)) ∧
    (strLower exercise_name = "pull-ups" →
      analyze_video exercise_name v = .ok (pullupResult v.pullupFrames)) ∧
    (strLower exercise_name = "bench press" →
      analyze_video exercise_name v = .ok (benchResult v.benchFrames)) ∧
    (strLower exercise_name = "curls" →
      analyze_video exercise_name v = .ok (curlResult v.curlFrames)) ∧
    (strLower exercise_name = "crunches" →
      analyze_video exercise_name v = .ok (crunchResult v.crunchFrames)) := by
  by_cases h1 : ("push-ups" : String) = strLower exercise_name
  · have h1s := h1.symm
    simp [analyze_video, ANALYZERS, List.find?, Except.isOk, Except.toBool, ← h1, h1s]
  have h1s : ¬ strLower exercise_name = "push-ups" := fun hh => h1 hh.symm
  by_cases h2 : ("pull-ups" : String) = strLower exercise_name
  · have h2s := h2.symm
    simp [analyze_video, ANALYZERS, List.find?, Except.isOk, Except.toBool, h1, h1s, ← h2, h2s]
  have h2s : ¬ strLower exercise_name = "pull-ups" := fun hh => h2 hh.symm
  by_cases h3 : ("bench press" : String) = strLower exercise_name
  · have h3s := h3.symm
    simp [analyze_video, ANALYZERS, List.find?, Except.isOk, Except.toBool, h1, h1s, h2, h2s, ← h3, h3s]
  have h3s : ¬ strLower exercise_name = "bench press" := fun hh => h3 hh.symm
  by_cases h4 : ("curls" : String) = strLower exercise_name
  · have h4s := h4.symm
    simp [analyze_video, ANALYZERS, List.find?, Except.isOk, Except.toBool, h1, h1s, h2, h2s, h3, h3s,
      ← h4, h4s]
  have h4s : ¬ strLower exercise_name = "curls" := fun hh => h4 hh.symm
  by_cases h5 : ("crunches" : String) = strLower exercise_name
  · have h5s := h5.symm
    simp [analyze_video, ANALYZERS, List.find?, Except.isOk, Except.toBool, h1, h1s, h2, h2s, h3, h3s,
      h4, h4s, ← h5, h5s]
  have h5s : ¬ strLower exercise_name = "crunches" := fun hh => h5 hh.symm
  simp [analyze_video, ANALYZERS, List.find?, Except.isOk, Except.toBool, h1, h1s, h2, h2s, h3, h3s,
    h4, h4s, h5, h5s]

/-- C9 witness: a mixed-case recognized identifier dispatches to the push-up
analyzer on an empty video, and an unrecognized identifier yields an error
independently of the video. -/
theorem C9_analyze_video_dispatch_witness :
    (analyze_video "Push-Ups" ⟨[], [], [], [], []⟩).isOk = true ∧
    analyze_video "Push-Ups" ⟨[], [], [], [], []⟩ =
      .ok (pushupResult []) ∧
    (analyze_video "squats" ⟨[], [], [], [], []⟩).isOk = false := by
  have h := C9_analyze_video_dispatch "Push-Ups" ⟨[], [], [], [], []⟩ ⟨[], [], [], [], []⟩
  have hs := C9_analyze_video_dispatch "squats" ⟨[], [], [], [], []⟩ ⟨[], [], [], [], []⟩
  refine ⟨h.1.mpr (by decide), h.2.2.1 (by decide), ?_⟩
  have hmem : strLower "squats" ∉
      (["push-ups", "pull-ups", "bench press", "curls", "crunches"] : List String) := by
    decide
  rcases hb : (analyze_video "squats" ⟨[], [], [], [], []⟩).isOk with _ | _
  · rfl
  · exact absurd (hs.1.mp hb) hmem

-- ──────────────────────── C10: curls without upper-arm samples ────────────────────────

theorem curlIssues_no_ua (rom : ℚ) :
    curlIssues rom [] = if rom < 80 then [curlRomMsg rom] else [] := by
  unfold curlIssues
  simp

theorem curlRomMsg_ne_swing (rom : ℚ) : curlRomMsg rom ≠ curlSwingMsg := by
  intro h
  have hd : (curlRomMsg rom).data.head? = (curlSwingMsg).data.head? := by rw [h]
  rw [show (curlSwingMsg).data.head? = some 'U' from rfl] at hd
  have hl : (curlRomMsg rom).data.head? = some 'L' := by
    unfold curlRomMsg
    rfl
  rw [hl] at hd
  exact absurd (Option.some.inj hd) (by decide)

/-- C10: when no upper-arm-angle samples were collected during a curls rep
window (the hip keypoint on a visible arm's side was never present), the
upper-arm stability check is skipped entirely: the only possible issue is the
range-of-motion clause, the rep is graded "good" exactly when the range of
motion is at least 80°, and the "swinging" clause can never appear. -/
theorem C10_curls_no_ua_samples (angles : List ℚ) (n : ℕ) :
    (curlIssues (npMaxD angles 90 - npMinD angles 90) [] =
      if npMaxD angles 90 - npMinD angles 90 < 80 then
        [curlRomMsg (npMaxD angles 90 - npMinD angles 90)]
      else []) ∧
    ((gradeCurlRep angles [] n).status = "good" ↔
      80 ≤ npMaxD angles 90 - npMinD angles 90) ∧
    curlSwingMsg ∉ curlIssues (npMaxD angles 90 - npMinD angles 90) [] := by
  refine ⟨curlIssues_no_ua _, ?_, ?_⟩
  · unfold gradeCurlRep
    dsimp only
    rw [curlIssues_no_ua]
    split_ifs <;> simp_all [not_lt, not_le]
  · rw [curlIssues_no_ua]
    split_ifs
    · simp only [List.mem_singleton]
      exact fun hh => curlRomMsg_ne_swing _ hh.symm
    · simp
